import Mathlib

/-!
Shallow embedding of `src/user_study_results/ground_truth_outputs.py`:
two module-level constants, each an ordered list of 20 string literals
(the first 20 ground-truth outputs of the monsters and places user
studies). The Python file defines no functions; the embedding is the
two lists themselves plus small helper functions used to state the
properties (substring search, sentence-stop counting, a read operation).
-/

set_option maxRecDepth 100000

namespace GroundTruthOutputs

/-- The constant `MONSTERS_FIRST_20` of the source file: the first 20
ground-truth monster descriptions, in source order. -/
def MONSTERS_FIRST_20 : List String :=
  [
    "The Lumivine is a bioluminescent vine creature that emits a soothing glow; once a guardian of sacred groves, it now ensnares travelers to protect its dwindling forests from harm.",
    "The Lumigore is a once-gentle forest guardian, transformed into a vengeful monster by a dark curse after its forest was destroyed by greedy mages seeking magical resources.",
    "The Luminal Wisp is a mischievous, ethereal creature that once guarded the border between realms but was cursed to roam aimlessly after being tricked into abandoning its post by a deceitful sorcerer.",
    "The Lamenting Willow: A tree-like creature born from the sorrows of lost travelers, it wanders the magical world seeking to guide others home, but its mournful wails often attract dangerous predators.",
    "The Lumivine, a bioluminescent vine creature, was once a guardian spirit of the forest corrupted by dark magic, now ensnaring lost travelers in its glowing tendrils.",
    "The Lumisprite is a glowing, moth-like creature that once served as guardians of the magical world's light sources, but were corrupted by dark magic, causing them to spread shadows instead.",
    "The Lumivine is a bioluminescent vine creature that once thrived on sunlight, but after a sorcerer's curse, it now feeds on the dreams of lost children to survive.",
    "The Lumivine is a bioluminescent vine creature that was once the guardian of the forest's light, cursed into a monstrous form for failing to protect its realm from darkness.",
    "The Lumivine: Once benevolent forest spirits, these creatures transformed into glowing, vine-covered beasts after a dark curse, now luring lost travelers deeper into the enchanted woods.",
    "The Lumivine Serpent is a glowing, vine-covered snake that was once a guardian spirit of the forest, but became twisted and hostile after a botched spell by a rogue wizard seeking to harness its power.",
    "The Luminescent Gloomling, once benevolent spirits of light, were cursed by a dark sorcerer and now wander the woods, seeking to absorb the light from any living being they encounter to regain their lost purity.",
    "The Lumivore is a bioluminescent, shadowy creature that was once a guardian of light, but turned into a monster after being corrupted by the darkness it vowed to protect against.",
    "The Lumigloom are shadowy creatures that were once the guiding spirits of the enchanted forest, but were corrupted by dark magic and now seek to trap lost souls in their eternal night.",
    "The Willow Wisp is a mischievous spirit born from the lost souls of children who wandered too far into the enchanted forest, guiding travelers deeper into the woods with its alluring glow in hopes of finding a way home themselves.",
    "The Lumivores are ethereal creatures that feed on light, created long ago by a sorcerer who sought to dim the world's radiance in a bid for eternal night.",
    "The Lumivine Serpent is a bioluminescent snake that once served as guardians of the forest's ancient secrets but became cursed to eternally search for their lost wisdom.",
    "The Lumibrume is a misty creature that guards the enchanted forests; it was once a wise sage who transformed to protect the realm from intruders after a tragic betrayal.",
    "The Lumisprite is a bioluminescent creature that guides lost souls through the forest; once benevolent protectors, they turned mischievous after a magical curse, leading travelers astray unless a riddle is solved.",
    "The Lumivine Serpent is a bioluminescent snake-like creature that once served as guardians of ancient forest temples, glowing in the dark to guide lost souls back to safety.",
    "The Lumigloom is a bioluminescent, shadowy creature born from lost wishes, casting eerie lights in the dark forest, seeking to guide or mislead travelers based on their intentions.",
  ]

/-- The constant `PLACES_FIRST_20` of the source file: the first 20
ground-truth place descriptions, in source order. -/
def PLACES_FIRST_20 : List String :=
  [
    "The Whispering Glade is an ancient forest where trees communicate secrets of the world to those who listen, believed to be the resting place of an old druid who merged with nature centuries ago.",
    "The Crystal Caverns: Once the sacred home of an ancient order of seers, these luminescent caves now serve as a refuge for those seeking visions of the future, with every crystal reflecting echoes of forgotten prophecies.",
    "The Crystal Caverns: Once a sacred site for ancient druids, these luminescent caves now serve as a refuge for lost travelers, with crystals that heal those who seek their light.",
    "The Whispering Glade is an ancient forest where trees are said to hold the memories of the world, and travelers who listen closely can hear secrets of the past whispered by the rustling leaves.",
    "The Luminous Glade is a serene forest clearing where ancient druids once gathered to harness the moon's power, leaving behind a faint, perpetual glow that enhances magical abilities.",
    "The Glimmering Falls: A cascading waterfall infused with ancient magic, believed to be the birthplace of the realm's first wizards, where players can harness rare elemental powers.",
    "The Whispering Glade is an ancient forest where the trees are said to hold the memories of the world, and adventurers visit to seek guidance from the ethereal voices that echo through its leaves.",
    "The Luminous Grove is a radiant forest where ancient, bioluminescent trees illuminate paths to forgotten altars, once used by druids to commune with celestial beings.",
    "The Glimmering Caves of Eldoria: Once a hidden refuge for ancient wizards, these luminescent caverns now serve as a sacred site where adventurers seek wisdom and magical artifacts left behind.",
    "Whispering Glade: An ancient forest where ethereal spirits share secrets of lost magic, once a sacred meeting place for wizards of old.",
    "The Shimmering Glade is a mystical forest where ancient wizards once gathered to harness celestial magic, leaving behind enchanted runes that still pulse with arcane energy.",
    "The Whispering Glade: Once an ancient elven sanctuary, it is now a mystical forest where the trees softly murmur forgotten secrets and guide worthy adventurers to hidden treasures.",
    "The Whispering Glade: Once a sacred meeting ground for ancient druids, this mystical grove now echoes with the secrets of the forest, guiding adventurers who seek nature's wisdom.",
    "Mystic Glade: Once a sacred meeting place for ancient druids, this enchanted forest clearing now teems with magical flora and serves as a refuge for lost travelers seeking guidance.",
    "The Luminous Caverns: Once the sacred gathering place of the ancient Luminaris, these glowing, crystal-filled caves now serve as a sanctuary for adventurers seeking wisdom from the echoes of the past.",
    "The Shimmering Glade is an ancient grove where ethereal lights dance, said to be the resting place of the first Enchanter who harnessed the power of the stars to weave magic into the world.",
    "The Whispering Grove: Once a sacred meeting place for ancient druids who harnessed its mystical energies, it now serves as a haven for travelers seeking guidance from the enchanted trees that softly share secrets of the past.",
    "The Whispering Glade: A serene forest where ancient trees hum with the secrets of the land, said to be the resting place of a forgotten civilization's wisdom, guarded by ethereal spirits.",
    "The Whispering Glade is an enchanted forest where ancient spirits communicate through the rustling leaves, once serving as a sacred meeting ground for druids to seek wisdom and guidance.",
    "Emerald Glade: A serene forest clearing where ancient druids once convened to harness the land's magic, now serving as a sanctuary for weary travelers seeking rejuvenation.",
  ]

end GroundTruthOutputs

namespace GroundTruthOutputs

/-- Whether the string `s` begins with the string `pre`, compared character by
character on the authored text. -/
def beginsWith (s pre : String) : Bool :=
  s.data.take pre.data.length == pre.data

/-- Whether `pat` occurs as a contiguous substring of `s`. -/
def containsSub (s pat : String) : Bool :=
  (List.range (s.data.length + 1)).any fun i =>
    (s.data.drop i).take pat.data.length == pat.data

/-- The number of sentence-terminating stops (periods, exclamation marks,
question marks) in `s`. -/
def stopCount (s : String) : Nat :=
  s.data.countP fun c => c == '.' || c == '!' || c == '?'

/-- Reading the module constant `MONSTERS_FIRST_20`: a Python attribute read
applies no transformation to the authored value. -/
def readMonsters : Unit → List String := fun _ => MONSTERS_FIRST_20

/-- Reading the module constant `PLACES_FIRST_20`: a Python attribute read
applies no transformation to the authored value. -/
def readPlaces : Unit → List String := fun _ => PLACES_FIRST_20

/-- C1: the sequence MONSTERS_FIRST_20 contains exactly 20 elements, and the
sequence PLACES_FIRST_20 contains exactly 20 elements. -/
theorem both_sequences_have_twenty_elements :
    MONSTERS_FIRST_20.length = 20 ∧ PLACES_FIRST_20.length = 20 :=
  ⟨rfl, rfl⟩

/-- C2: the element at index 0 of MONSTERS_FIRST_20 begins with
"The Lumivine is a bioluminescent vine creature", and the element at index 0
of PLACES_FIRST_20 begins with "The Whispering Glade is an ancient forest". -/
theorem first_elements_begin_with_expected_text :
    beginsWith (MONSTERS_FIRST_20.getD 0 "")
      "The Lumivine is a bioluminescent vine creature" = true ∧
    beginsWith (PLACES_FIRST_20.getD 0 "")
      "The Whispering Glade is an ancient forest" = true := by
  decide

/-- C3: every element of MONSTERS_FIRST_20 and every element of
PLACES_FIRST_20 is a non-empty string. -/
theorem every_element_nonempty :
    (∀ s ∈ MONSTERS_FIRST_20, s ≠ "") ∧ (∀ s ∈ PLACES_FIRST_20, s ≠ "") := by
  decide

/-- Witness for C3: the first monster entry is a member and is non-empty. -/
theorem every_element_nonempty_witness :
    (MONSTERS_FIRST_20.getD 0 "") ∈ MONSTERS_FIRST_20 ∧
      MONSTERS_FIRST_20.getD 0 "" ≠ "" :=
  ⟨by decide, every_element_nonempty.1 (MONSTERS_FIRST_20.getD 0 "") (by decide)⟩

/-- C4: there are two distinct indices of MONSTERS_FIRST_20 whose elements
both contain the substring "Lumivine": the elements are not unique up to
near-duplication. -/
theorem two_distinct_monster_indices_contain_lumivine :
    ∃ i j : Nat, i < 20 ∧ j < 20 ∧ i ≠ j ∧
      containsSub (MONSTERS_FIRST_20.getD i "") "Lumivine" = true ∧
      containsSub (MONSTERS_FIRST_20.getD j "") "Lumivine" = true :=
  ⟨0, 4, by decide⟩

/-- C6: for every index i with i < 20, indexing either sequence at i yields a
value (the lookup succeeds). -/
theorem indexing_within_bounds_succeeds :
    ∀ i : Nat, i < 20 →
      (MONSTERS_FIRST_20.get? i).isSome = true ∧
        (PLACES_FIRST_20.get? i).isSome = true := by
  decide

/-- Witness for C6: indexing at 19 succeeds in both sequences. -/
theorem indexing_within_bounds_succeeds_witness :
    19 < 20 ∧
      ((MONSTERS_FIRST_20.get? 19).isSome = true ∧
        (PLACES_FIRST_20.get? 19).isSome = true) :=
  ⟨by decide, indexing_within_bounds_succeeds 19 (by decide)⟩

/-- C7: reading either constant twice yields identical values, and each read
returns exactly the authored list, with no transformation applied. -/
theorem rereading_constants_is_identity :
    ∀ u v : Unit,
      readMonsters u = readMonsters v ∧ readMonsters u = MONSTERS_FIRST_20 ∧
        readPlaces u = readPlaces v ∧ readPlaces u = PLACES_FIRST_20 :=
  fun _ _ => ⟨rfl, rfl, rfl, rfl⟩

/-- C8: every element of both sequences is a paragraph of one to three
sentences: its count of sentence-terminating stops is between 1 and 3. -/
theorem every_element_one_to_three_sentences :
    (∀ s ∈ MONSTERS_FIRST_20, 1 ≤ stopCount s ∧ stopCount s ≤ 3) ∧
      (∀ s ∈ PLACES_FIRST_20, 1 ≤ stopCount s ∧ stopCount s ≤ 3) := by
  decide

/-- Witness for C8: the first place entry is a member and its stop count is
between 1 and 3. -/
theorem every_element_one_to_three_sentences_witness :
    (PLACES_FIRST_20.getD 0 "") ∈ PLACES_FIRST_20 ∧
      (1 ≤ stopCount (PLACES_FIRST_20.getD 0 "") ∧
        stopCount (PLACES_FIRST_20.getD 0 "") ≤ 3) :=
  ⟨by decide,
    every_element_one_to_three_sentences.2 (PLACES_FIRST_20.getD 0 "") (by decide)⟩

/-- C9: within each sequence the 20 elements are pairwise distinct as exact
strings. -/
theorem elements_pairwise_distinct :
    MONSTERS_FIRST_20.Nodup ∧ PLACES_FIRST_20.Nodup := by
  decide

/-- C10: every element of MONSTERS_FIRST_20 begins with "The ", while some
element of PLACES_FIRST_20 does not. -/
theorem monsters_begin_with_the_but_some_place_does_not :
    (∀ s ∈ MONSTERS_FIRST_20, beginsWith s "The " = true) ∧
      (∃ s ∈ PLACES_FIRST_20, beginsWith s "The " = false) := by
  decide

/-- Witness for C10: the first monster entry is a member and begins with
"The ". -/
theorem monsters_begin_with_the_witness :
    (MONSTERS_FIRST_20.getD 0 "") ∈ MONSTERS_FIRST_20 ∧
      beginsWith (MONSTERS_FIRST_20.getD 0 "") "The " = true :=
  ⟨by decide,
    monsters_begin_with_the_but_some_place_does_not.1
      (MONSTERS_FIRST_20.getD 0 "") (by decide)⟩

end GroundTruthOutputs

namespace GroundTruthOutputs

/-- C5: for every index, the element of each sequence equals the string
literal written at that position in the source, in the source order and with
the exact wording. -/
theorem elements_match_source_literals_in_order :
    MONSTERS_FIRST_20 =
      [
      "The Lumivine is a bioluminescent vine creature that emits a soothing glow; once a guardian of sacred groves, it now ensnares travelers to protect its dwindling forests from harm.",
      "The Lumigore is a once-gentle forest guardian, transformed into a vengeful monster by a dark curse after its forest was destroyed by greedy mages seeking magical resources.",
      "The Luminal Wisp is a mischievous, ethereal creature that once guarded the border between realms but was cursed to roam aimlessly after being tricked into abandoning its post by a deceitful sorcerer.",
      "The Lamenting Willow: A tree-like creature born from the sorrows of lost travelers, it wanders the magical world seeking to guide others home, but its mournful wails often attract dangerous predators.",
      "The Lumivine, a bioluminescent vine creature, was once a guardian spirit of the forest corrupted by dark magic, now ensnaring lost travelers in its glowing tendrils.",
      "The Lumisprite is a glowing, moth-like creature that once served as guardians of the magical world's light sources, but were corrupted by dark magic, causing them to spread shadows instead.",
      "The Lumivine is a bioluminescent vine creature that once thrived on sunlight, but after a sorcerer's curse, it now feeds on the dreams of lost children to survive.",
      "The Lumivine is a bioluminescent vine creature that was once the guardian of the forest's light, cursed into a monstrous form for failing to protect its realm from darkness.",
      "The Lumivine: Once benevolent forest spirits, these creatures transformed into glowing, vine-covered beasts after a dark curse, now luring lost travelers deeper into the enchanted woods.",
      "The Lumivine Serpent is a glowing, vine-covered snake that was once a guardian spirit of the forest, but became twisted and hostile after a botched spell by a rogue wizard seeking to harness its power.",
      "The Luminescent Gloomling, once benevolent spirits of light, were cursed by a dark sorcerer and now wander the woods, seeking to absorb the light from any living being they encounter to regain their lost purity.",
      "The Lumivore is a bioluminescent, shadowy creature that was once a guardian of light, but turned into a monster after being corrupted by the darkness it vowed to protect against.",
      "The Lumigloom are shadowy creatures that were once the guiding spirits of the enchanted forest, but were corrupted by dark magic and now seek to trap lost souls in their eternal night.",
      "The Willow Wisp is a mischievous spirit born from the lost souls of children who wandered too far into the enchanted forest, guiding travelers deeper into the woods with its alluring glow in hopes of finding a way home themselves.",
      "The Lumivores are ethereal creatures that feed on light, created long ago by a sorcerer who sought to dim the world's radiance in a bid for eternal night.",
      "The Lumivine Serpent is a bioluminescent snake that once served as guardians of the forest's ancient secrets but became cursed to eternally search for their lost wisdom.",
      "The Lumibrume is a misty creature that guards the enchanted forests; it was once a wise sage who transformed to protect the realm from intruders after a tragic betrayal.",
      "The Lumisprite is a bioluminescent creature that guides lost souls through the forest; once benevolent protectors, they turned mischievous after a magical curse, leading travelers astray unless a riddle is solved.",
      "The Lumivine Serpent is a bioluminescent snake-like creature that once served as guardians of ancient forest temples, glowing in the dark to guide lost souls back to safety.",
      "The Lumigloom is a bioluminescent, shadowy creature born from lost wishes, casting eerie lights in the dark forest, seeking to guide or mislead travelers based on their intentions.",
    ] ∧
    PLACES_FIRST_20 =
      [
      "The Whispering Glade is an ancient forest where trees communicate secrets of the world to those who listen, believed to be the resting place of an old druid who merged with nature centuries ago.",
      "The Crystal Caverns: Once the sacred home of an ancient order of seers, these luminescent caves now serve as a refuge for those seeking visions of the future, with every crystal reflecting echoes of forgotten prophecies.",
      "The Crystal Caverns: Once a sacred site for ancient druids, these luminescent caves now serve as a refuge for lost travelers, with crystals that heal those who seek their light.",
      "The Whispering Glade is an ancient forest where trees are said to hold the memories of the world, and travelers who listen closely can hear secrets of the past whispered by the rustling leaves.",
      "The Luminous Glade is a serene forest clearing where ancient druids once gathered to harness the moon's power, leaving behind a faint, perpetual glow that enhances magical abilities.",
      "The Glimmering Falls: A cascading waterfall infused with ancient magic, believed to be the birthplace of the realm's first wizards, where players can harness rare elemental powers.",
      "The Whispering Glade is an ancient forest where the trees are said to hold the memories of the world, and adventurers visit to seek guidance from the ethereal voices that echo through its leaves.",
      "The Luminous Grove is a radiant forest where ancient, bioluminescent trees illuminate paths to forgotten altars, once used by druids to commune with celestial beings.",
      "The Glimmering Caves of Eldoria: Once a hidden refuge for ancient wizards, these luminescent caverns now serve as a sacred site where adventurers seek wisdom and magical artifacts left behind.",
      "Whispering Glade: An ancient forest where ethereal spirits share secrets of lost magic, once a sacred meeting place for wizards of old.",
      "The Shimmering Glade is a mystical forest where ancient wizards once gathered to harness celestial magic, leaving behind enchanted runes that still pulse with arcane energy.",
      "The Whispering Glade: Once an ancient elven sanctuary, it is now a mystical forest where the trees softly murmur forgotten secrets and guide worthy adventurers to hidden treasures.",
      "The Whispering Glade: Once a sacred meeting ground for ancient druids, this mystical grove now echoes with the secrets of the forest, guiding adventurers who seek nature's wisdom.",
      "Mystic Glade: Once a sacred meeting place for ancient druids, this enchanted forest clearing now teems with magical flora and serves as a refuge for lost travelers seeking guidance.",
      "The Luminous Caverns: Once the sacred gathering place of the ancient Luminaris, these glowing, crystal-filled caves now serve as a sanctuary for adventurers seeking wisdom from the echoes of the past.",
      "The Shimmering Glade is an ancient grove where ethereal lights dance, said to be the resting place of the first Enchanter who harnessed the power of the stars to weave magic into the world.",
      "The Whispering Grove: Once a sacred meeting place for ancient druids who harnessed its mystical energies, it now serves as a haven for travelers seeking guidance from the enchanted trees that softly share secrets of the past.",
      "The Whispering Glade: A serene forest where ancient trees hum with the secrets of the land, said to be the resting place of a forgotten civilization's wisdom, guarded by ethereal spirits.",
      "The Whispering Glade is an enchanted forest where ancient spirits communicate through the rustling leaves, once serving as a sacred meeting ground for druids to seek wisdom and guidance.",
      "Emerald Glade: A serene forest clearing where ancient druids once convened to harness the land's magic, now serving as a sanctuary for weary travelers seeking rejuvenation.",
    ] :=
  ⟨rfl, rfl⟩

end GroundTruthOutputs
